import Mathlib

/-! Portfolio CMS gateway (`server.js`)

A shallow embedding of the Express gateway: JavaScript values, the Express
response object, the Supabase client seen as a stub, the `protect` middleware,
the route handlers and the top-level script that registers the routes.
-/

namespace Server

/-! ## JavaScript values -/

/-- JavaScript values that travel through the gateway (request bodies, rows,
error objects, identities). `undefined` is a value of its own. -/
inductive Json where
  | undefined : Json
  | null : Json
  | bool (b : Bool) : Json
  | num (n : Int) : Json
  | str (s : String) : Json
  | arr (xs : List Json) : Json
  | obj (kvs : List (String × Json)) : Json

/-- JavaScript truthiness, as tested by `if (v)` and `!v`. -/
def truthy : Json → Bool
  | .undefined => false
  | .null => false
  | .bool b => b
  | .num n => n != 0
  | .str s => s != ""
  | .arr _ => true
  | .obj _ => true

/-- Property lookup in an object literal's field list. -/
def lookup (k : String) : List (String × Json) → Json
  | [] => .undefined
  | (k', v) :: rest => if k' = k then v else lookup k rest

/-- The expression `data[0]`. Indexing `null` or `undefined` throws a
`TypeError`; an array gives its first element or `undefined`; a string gives
its first character or `undefined`; an object gives its property `"0"`. -/
def index0 : Json → Except String Json
  | .undefined => .error "TypeError"
  | .null => .error "TypeError"
  | .bool _ => .ok .undefined
  | .num _ => .ok .undefined
  | .str s =>
    match s.toList with
    | [] => .ok .undefined
    | c :: _ => .ok (.str (String.mk [c]))
  | .arr xs =>
    match xs with
    | [] => .ok .undefined
    | x :: _ => .ok x
  | .obj kvs => .ok (lookup "0" kvs)

/-- The object literal `{ message: m }`. -/
def message (m : String) : Json := .obj [("message", .str m)]

/-! ## `String.prototype.split` -/

/-- Splitting a character sequence at every occurrence of `sep`: consecutive
separators give empty segments, and the empty sequence gives one empty
segment. -/
def splitChars (sep : Char) : List Char → List (List Char)
  | [] => [[]]
  | c :: cs =>
    if c = sep then [] :: splitChars sep cs
    else
      match splitChars sep cs with
      | [] => [[c]]
      | seg :: rest => (c :: seg) :: rest

/-- The call `s.split(' ')`. -/
def split (s : String) : List String :=
  (splitChars ' ' s.toList).map String.mk

/-! ## Request, response, backing service -/

/-- The request headers the gateway reads. -/
structure Headers where
  authorization : Option String

/-- The route parameters the gateway reads. -/
structure Params where
  id : String

/-- The Express request: headers, parsed JSON body, route parameters and the
`user` property written by the guard (`undefined` until then). -/
structure Request where
  headers : Headers
  body : Json
  params : Params
  user : Json

/-- The Express response: the status code set so far (200 by default) and the
responses sent, oldest first, each with its status and JSON body. -/
structure Response where
  statusCode : Nat
  sent : List (Nat × Json)

/-- A fresh response object. -/
def Response.fresh : Response := ⟨200, []⟩

/-- The call `res.status(code)`. -/
def Response.status (res : Response) (code : Nat) : Response :=
  ⟨code, res.sent⟩

/-- The call `res.json(body)`: sends `body` with the current status code. -/
def Response.json (res : Response) (body : Json) : Response :=
  ⟨res.statusCode, res.sent ++ [(res.statusCode, body)]⟩

/-- The `data` part of the result of `supabase.auth.getUser`. -/
structure AuthData where
  user : Json

/-- The result of `supabase.auth.getUser(token)`. -/
structure AuthResult where
  data : AuthData
  error : Json

/-- The operation of a query built on a table. -/
inductive Op where
  | none : Op
  | select (columns : String) : Op
  | insert (rows : List Json) : Op
  | update (values : Json) : Op
  | delete : Op

/-- A query as built by the chained calls on `supabase.from(table)`. -/
structure Query where
  table : String
  op : Op
  filters : List (String × Json)
  returning : Bool
  order : Option (String × Bool)
  single : Bool

/-- The call `supabase.from(table)`. -/
def fromTable (table : String) : Query := ⟨table, .none, [], false, none, false⟩

/-- The call `.select('*')` on a table. -/
def Query.select (q : Query) (columns : String) : Query :=
  ⟨q.table, .select columns, q.filters, q.returning, q.order, q.single⟩

/-- The call `.insert(rows)`. -/
def Query.insert (q : Query) (rows : List Json) : Query :=
  ⟨q.table, .insert rows, q.filters, q.returning, q.order, q.single⟩

/-- The call `.update(values)`. -/
def Query.update (q : Query) (values : Json) : Query :=
  ⟨q.table, .update values, q.filters, q.returning, q.order, q.single⟩

/-- The call `.delete()`. -/
def Query.delete (q : Query) : Query :=
  ⟨q.table, .delete, q.filters, q.returning, q.order, q.single⟩

/-- The call `.eq(column, value)`. -/
def Query.eq (q : Query) (column : String) (value : Json) : Query :=
  ⟨q.table, q.op, q.filters ++ [(column, value)], q.returning, q.order, q.single⟩

/-- The call `.select()` after an insert or update: asks the rows back. -/
def Query.selectBack (q : Query) : Query :=
  ⟨q.table, q.op, q.filters, true, q.order, q.single⟩

/-- The call `.order(column, { ascending })`. -/
def Query.orderBy (q : Query) (column : String) (ascending : Bool) : Query :=
  ⟨q.table, q.op, q.filters, q.returning, some (column, ascending), q.single⟩

/-- The call `.single()`. -/
def Query.one (q : Query) : Query :=
  ⟨q.table, q.op, q.filters, q.returning, q.order, true⟩

/-- The result of an awaited query. -/
structure DbResult where
  data : Json
  error : Json

/-- The backing service as a stub: what token verification answers for each
token and what each query answers. -/
structure Supabase where
  getUser : String → AuthResult
  run : Query → DbResult

/-- A call made to the backing service. -/
inductive Call where
  | getUser (token : String) : Call
  | run (q : Query) : Call

/-- One request being served: the request, the response, the calls made to the
backing service so far (oldest first), how many times `next()` was invoked, and
the exception thrown by the handler, if any. -/
structure Exchange where
  req : Request
  res : Response
  calls : List Call
  nexts : Nat
  thrown : Option String

/-- The exchange at the arrival of a request. -/
def Exchange.start (req : Request) : Exchange := ⟨req, Response.fresh, [], 0, none⟩

/-! ## Auth middleware -/

/-- The expression `req.headers.authorization?.split(' ')[1]`. -/
def tokenOf (req : Request) : Option String :=
  match req.headers.authorization with
  | none => none
  | some h => (split h)[1]?

/-- The middleware `protect`. -/
def protect (supabase : Supabase) (x : Exchange) : Exchange :=
  let deny : Exchange :=
    ⟨x.req, (x.res.status 401).json (message "Access Denied"), x.calls, x.nexts, x.thrown⟩
  match tokenOf x.req with
  | none => deny
  | some token =>
    if token = "" then deny
    else
      let r := supabase.getUser token
      let calls := x.calls ++ [Call.getUser token]
      if truthy r.error || !truthy r.data.user then
        ⟨x.req, (x.res.status 403).json (message "Invalid or expired token"), calls, x.nexts,
          x.thrown⟩
      else
        ⟨⟨x.req.headers, x.req.body, x.req.params, r.data.user⟩, x.res, calls, x.nexts + 1,
          x.thrown⟩

/-! ## Route handlers -/

/-- The handler of `GET /api/about`. -/
def aboutGet (supabase : Supabase) (x : Exchange) : Exchange :=
  let q := ((fromTable "about").select "*").one
  let r := supabase.run q
  ⟨x.req, x.res.json r.data, x.calls ++ [Call.run q], x.nexts, x.thrown⟩

/-- The handler `publicGet(table)`. -/
def publicGet (table : String) (supabase : Supabase) (x : Exchange) : Exchange :=
  let q := ((fromTable table).select "*").orderBy "id" true
  let r := supabase.run q
  ⟨x.req, x.res.json r.data, x.calls ++ [Call.run q], x.nexts, x.thrown⟩

/-- The handler of `POST /api/contact`. -/
def contact (supabase : Supabase) (x : Exchange) : Exchange :=
  let q := (fromTable "messages").insert [x.req.body]
  let r := supabase.run q
  let calls := x.calls ++ [Call.run q]
  if truthy r.error then
    ⟨x.req, (x.res.status 400).json r.error, calls, x.nexts, x.thrown⟩
  else
    ⟨x.req, x.res.json (message "Sent!"), calls, x.nexts, x.thrown⟩

/-- The handler of `GET /api/admin/<table>` registered by `setupAdminCRUD`. -/
def adminGet (table : String) (supabase : Supabase) (x : Exchange) : Exchange :=
  let q := ((fromTable table).select "*").orderBy "id" false
  let r := supabase.run q
  ⟨x.req, x.res.json r.data, x.calls ++ [Call.run q], x.nexts, x.thrown⟩

/-- The handler of `POST /api/admin/<table>` registered by `setupAdminCRUD`.
`res.status(201)` runs before `data[0]` is evaluated. -/
def adminPost (table : String) (supabase : Supabase) (x : Exchange) : Exchange :=
  let q := ((fromTable table).insert [x.req.body]).selectBack
  let r := supabase.run q
  let calls := x.calls ++ [Call.run q]
  if truthy r.error then
    ⟨x.req, (x.res.status 400).json r.error, calls, x.nexts, x.thrown⟩
  else
    match index0 r.data with
    | .error e => ⟨x.req, x.res.status 201, calls, x.nexts, some e⟩
    | .ok row => ⟨x.req, (x.res.status 201).json row, calls, x.nexts, x.thrown⟩

/-- The handler of `PUT /api/admin/<table>/:id` registered by
`setupAdminCRUD`. -/
def adminPut (table : String) (supabase : Supabase) (x : Exchange) : Exchange :=
  let q := (((fromTable table).update x.req.body).eq "id" (.str x.req.params.id)).selectBack
  let r := supabase.run q
  let calls := x.calls ++ [Call.run q]
  if truthy r.error then
    ⟨x.req, (x.res.status 400).json r.error, calls, x.nexts, x.thrown⟩
  else
    match index0 r.data with
    | .error e => ⟨x.req, x.res, calls, x.nexts, some e⟩
    | .ok row => ⟨x.req, x.res.json row, calls, x.nexts, x.thrown⟩

/-- The handler of `DELETE /api/admin/<table>/:id` registered by
`setupAdminCRUD`. -/
def adminDelete (table : String) (supabase : Supabase) (x : Exchange) : Exchange :=
  let q := ((fromTable table).delete).eq "id" (.str x.req.params.id)
  let r := supabase.run q
  let calls := x.calls ++ [Call.run q]
  if truthy r.error then
    ⟨x.req, (x.res.status 400).json r.error, calls, x.nexts, x.thrown⟩
  else
    ⟨x.req, x.res.json (message "Deleted successfully"), calls, x.nexts, x.thrown⟩

/-- The handler of `PUT /api/admin/about`. -/
def aboutPut (supabase : Supabase) (x : Exchange) : Exchange :=
  let q := (((fromTable "about").update x.req.body).eq "id" (.num 1)).selectBack
  let r := supabase.run q
  let calls := x.calls ++ [Call.run q]
  if truthy r.error then
    ⟨x.req, (x.res.status 400).json r.error, calls, x.nexts, x.thrown⟩
  else
    match index0 r.data with
    | .error e => ⟨x.req, x.res, calls, x.nexts, some e⟩
    | .ok row => ⟨x.req, x.res.json row, calls, x.nexts, x.thrown⟩

/-- The handler of `GET /api/admin/messages`. -/
def messagesGet (supabase : Supabase) (x : Exchange) : Exchange :=
  let q := ((fromTable "messages").select "*").orderBy "created_at" false
  let r := supabase.run q
  let calls := x.calls ++ [Call.run q]
  if truthy r.error then
    ⟨x.req, (x.res.status 400).json r.error, calls, x.nexts, x.thrown⟩
  else
    ⟨x.req, x.res.json r.data, calls, x.nexts, x.thrown⟩

/-- The handler of `DELETE /api/admin/messages/:id`. -/
def messagesDelete (supabase : Supabase) (x : Exchange) : Exchange :=
  let q := ((fromTable "messages").delete).eq "id" (.str x.req.params.id)
  let r := supabase.run q
  let calls := x.calls ++ [Call.run q]
  if truthy r.error then
    ⟨x.req, (x.res.status 400).json r.error, calls, x.nexts, x.thrown⟩
  else
    ⟨x.req, x.res.json (message "Message deleted"), calls, x.nexts, x.thrown⟩

/-! ## The top-level script -/

/-- HTTP methods used by the routes. -/
inductive Method where
  | get : Method
  | post : Method
  | put : Method
  | delete : Method
  deriving DecidableEq, Repr

/-- The handler functions passed to the route registrations. -/
inductive Handler where
  | login : Handler
  | aboutGet : Handler
  | publicGet (table : String) : Handler
  | contact : Handler
  | adminGet (table : String) : Handler
  | adminPost (table : String) : Handler
  | adminPut (table : String) : Handler
  | adminDelete (table : String) : Handler
  | aboutPut : Handler
  | messagesGet : Handler
  | messagesDelete : Handler
  deriving DecidableEq, Repr

/-- A route registration `app.METHOD(path, ...middleware, handler)`: the
middleware are the identifiers written between the path and the handler. -/
structure Route where
  method : Method
  path : String
  middleware : List String
  handler : Handler
  deriving DecidableEq, Repr

/-- A top-level statement of the script. -/
inductive Stmt where
  | const (name : String) : Stmt
  | use : Stmt
  | route (r : Route) : Stmt
  | listen : Stmt
  deriving DecidableEq, Repr

/-- The routes registered by one call `setupAdminCRUD(table)`. -/
def setupAdminCRUD (table : String) : List Route :=
  [ ⟨.get, "/api/admin/" ++ table, ["protect"], .adminGet table⟩,
    ⟨.post, "/api/admin/" ++ table, ["protect"], .adminPost table⟩,
    ⟨.put, "/api/admin/" ++ table ++ "/:id", ["protect"], .adminPut table⟩,
    ⟨.delete, "/api/admin/" ++ table ++ "/:id", ["protect"], .adminDelete table⟩ ]

/-- The tables given to `setupAdminCRUD`. -/
def adminTables : List String :=
  ["skills", "projects", "blogs", "experience", "testimonials", "services"]

/-- The statements of `server.js`, in source order. -/
def script : List Stmt :=
  [ .const "express", .const "createClient", .const "cors",
    .const "app", .use, .use,
    .const "PORT",
    .const "supabase",
    .const "protect",
    .route ⟨.post, "/api/auth/login", [], .login⟩,
    .route ⟨.get, "/api/about", [], .aboutGet⟩,
    .const "publicGet",
    .route ⟨.get, "/api/skills", [], .publicGet "skills"⟩,
    .route ⟨.get, "/api/projects", [], .publicGet "projects"⟩,
    .route ⟨.get, "/api/blogs", [], .publicGet "blogs"⟩,
    .route ⟨.get, "/api/experience", [], .publicGet "experience"⟩,
    .route ⟨.get, "/api/testimonials", [], .publicGet "testimonials"⟩,
    .route ⟨.get, "/api/services", [], .publicGet "services"⟩,
    .route ⟨.post, "/api/contact", [], .contact⟩,
    .const "setupAdminCRUD" ]
  ++ (adminTables.flatMap setupAdminCRUD).map Stmt.route
  ++ [ .route ⟨.put, "/api/admin/about", ["protect"], .aboutPut⟩,
       .route ⟨.get, "/api/admin/messages", ["authenticateToken"], .messagesGet⟩,
       .route ⟨.delete, "/api/admin/messages/:id", ["authenticateToken"], .messagesDelete⟩,
       .listen ]

/-- The routes written in the script, in source order. -/
def routesOf : List Stmt → List Route
  | [] => []
  | .route r :: rest => r :: routesOf rest
  | _ :: rest => routesOf rest

/-- The state of the running script: the identifiers declared so far, the
routes registered so far and whether `app.listen` was reached. -/
structure Startup where
  scope : List String
  routes : List Route
  listening : Bool
  deriving DecidableEq, Repr

/-- The first identifier of `names` that is not in scope, if any. -/
def firstUndefined (scope : List String) : List String → Option String
  | [] => none
  | n :: rest => if n ∈ scope then firstUndefined scope rest else some n

/-- Executing one statement. Reading an identifier that is not declared throws
a `ReferenceError` naming it. -/
def exec (st : Startup) : Stmt → Except String Startup
  | .const name => .ok ⟨st.scope ++ [name], st.routes, st.listening⟩
  | .use =>
    match firstUndefined st.scope ["app"] with
    | some n => .error ("ReferenceError: " ++ n ++ " is not defined")
    | none => .ok st
  | .route r =>
    match firstUndefined st.scope ("app" :: r.middleware) with
    | some n => .error ("ReferenceError: " ++ n ++ " is not defined")
    | none => .ok ⟨st.scope, st.routes ++ [r], st.listening⟩
  | .listen =>
    match firstUndefined st.scope ["app", "PORT"] with
    | some n => .error ("ReferenceError: " ++ n ++ " is not defined")
    | none => .ok ⟨st.scope, st.routes, true⟩

/-- Executing statements in order; the first exception stops the script. On an
exception the state reached is returned with it. -/
def run (st : Startup) : List Stmt → Startup × Option String
  | [] => (st, none)
  | s :: rest =>
    match exec st s with
    | .error e => (st, some e)
    | .ok st' => run st' rest

/-- Whether `path` lies under `/api/admin/`. -/
def isAdminPath (path : String) : Bool :=
  "/api/admin/".toList.isPrefixOf path.toList

/-! ## Fixtures for concrete runs -/

/-- A stub of the backing service whose token verification always answers
`auth` and whose queries always answer `db`. -/
def stub (auth : AuthResult) (db : DbResult) : Supabase := ⟨fun _ => auth, fun _ => db⟩

/-- A request with the given `Authorization` header, an empty object as body,
route parameter `id = "7"` and no `user` property. -/
def request (authorization : Option String) : Request :=
  ⟨⟨authorization⟩, .obj [], ⟨"7"⟩, .undefined⟩

/-! ## Lemmas on `split` -/

theorem splitChars_ne_nil (sep : Char) (cs : List Char) : splitChars sep cs ≠ [] := by
  cases cs with
  | nil => simp [splitChars]
  | cons c cs =>
    unfold splitChars
    split
    · simp
    · split <;> simp

theorem splitChars_of_not_mem (sep : Char) (cs : List Char) (h : sep ∉ cs) :
    splitChars sep cs = [cs] := by
  induction cs with
  | nil => rfl
  | cons c cs ih =>
    have hc : c ≠ sep := fun e => h (by simp [e])
    have hcs : sep ∉ cs := fun e => h (by simp [e])
    simp [splitChars, hc, ih hcs]

theorem splitChars_append_sep (sep : Char) (a b : List Char) (h : sep ∉ a) :
    splitChars sep (a ++ sep :: b) = a :: splitChars sep b := by
  induction a with
  | nil => simp [splitChars]
  | cons c cs ih =>
    have hc : c ≠ sep := fun e => h (by simp [e])
    have hcs : sep ∉ cs := fun e => h (by simp [e])
    simp [splitChars, hc, ih hcs]

theorem split_of_no_space (h : String) (hsp : ' ' ∉ h.toList) : split h = [h] := by
  unfold split
  rw [splitChars_of_not_mem ' ' h.toList hsp]
  rfl

theorem split_bearer (token : String) (hsp : ' ' ∉ token.toList) :
    split ("Bearer " ++ token) = ["Bearer", token] := by
  have h1 : ("Bearer " ++ token).toList = "Bearer".toList ++ ' ' :: token.toList := by
    simp [String.toList]
  have h2 : ' ' ∉ "Bearer".toList := by decide
  simp only [split, h1, splitChars_append_sep ' ' _ _ h2,
    splitChars_of_not_mem ' ' token.toList hsp]
  rfl

/-! ## The auth guard -/

/-- Without a usable second segment `protect` answers 401 and does nothing
else. -/
theorem protect_without_token (supabase : Supabase) (x : Exchange)
    (h : tokenOf x.req = none ∨ tokenOf x.req = some "") :
    protect supabase x =
      ⟨x.req, ⟨401, x.res.sent ++ [(401, message "Access Denied")]⟩, x.calls, x.nexts,
        x.thrown⟩ := by
  rcases h with h | h <;> simp [protect, h, Response.status, Response.json]

/-- C1: when the `Authorization` header is absent or its second space-separated
segment is missing or empty, `protect` sends 401 `{message: "Access Denied"}`
and makes no call to the backing service; when a non-empty token is present and
the verification result has a truthy `error` or a falsy `user`, it sends 403
`{message: "Invalid or expired token"}`. In both cases `next` is not invoked
and the request is left as it was (no `user` is attached). -/
theorem protect_rejects (supabase : Supabase) (x : Exchange) :
    ((x.req.headers.authorization = none ∨
        ∃ h, x.req.headers.authorization = some h ∧
          ((split h)[1]? = none ∨ (split h)[1]? = some "")) →
      protect supabase x =
        ⟨x.req, ⟨401, x.res.sent ++ [(401, message "Access Denied")]⟩, x.calls, x.nexts,
          x.thrown⟩) ∧
    (∀ h token, x.req.headers.authorization = some h → (split h)[1]? = some token →
      token ≠ "" →
      (truthy (supabase.getUser token).error = true ∨
        truthy (supabase.getUser token).data.user = false) →
      protect supabase x =
        ⟨x.req, ⟨403, x.res.sent ++ [(403, message "Invalid or expired token")]⟩,
          x.calls ++ [Call.getUser token], x.nexts, x.thrown⟩) := by
  refine ⟨?_, ?_⟩
  · rintro (h | ⟨h, hh, hseg | hseg⟩)
    · exact protect_without_token supabase x (Or.inl (by simp [tokenOf, h]))
    · exact protect_without_token supabase x (Or.inl (by simp [tokenOf, hh, hseg]))
    · exact protect_without_token supabase x (Or.inr (by simp [tokenOf, hh, hseg]))
  · intro h token hh hseg hne hfail
    have hcond : (truthy (supabase.getUser token).error ||
        !truthy (supabase.getUser token).data.user) = true := by
      rcases hfail with hf | hf <;> simp [hf]
    simp [protect, tokenOf, hh, hseg, hne, hcond, Response.status, Response.json]

/-- Witness of C1: a request without header is answered 401, and a request
with header `Bearer abc` whose verification reports an error is answered 403
after one verification call. -/
theorem protect_rejects_witness :
    protect (stub ⟨⟨.null⟩, message "bad jwt"⟩ ⟨.null, .null⟩) (Exchange.start (request none)) =
        ⟨request none, ⟨401, [(401, message "Access Denied")]⟩, [], 0, none⟩ ∧
    protect (stub ⟨⟨.null⟩, message "bad jwt"⟩ ⟨.null, .null⟩)
        (Exchange.start (request (some "Bearer abc"))) =
        ⟨request (some "Bearer abc"), ⟨403, [(403, message "Invalid or expired token")]⟩,
          [Call.getUser "abc"], 0, none⟩ :=
  ⟨(protect_rejects (stub ⟨⟨.null⟩, message "bad jwt"⟩ ⟨.null, .null⟩)
      (Exchange.start (request none))).1 (Or.inl rfl),
   (protect_rejects (stub ⟨⟨.null⟩, message "bad jwt"⟩ ⟨.null, .null⟩)
      (Exchange.start (request (some "Bearer abc")))).2 "Bearer abc" "abc" rfl (by decide)
      (by decide) (Or.inl rfl)⟩

/-- C2: for a header `Bearer <token>` whose token is non-empty and has no
space, `protect` calls the token verification once, with exactly that token;
and when the verification result has a falsy `error` and a truthy `user`, it
sets `req.user` to that user, invokes `next` once and sends nothing. -/
theorem protect_accepts (supabase : Supabase) (x : Exchange) (token : String)
    (hne : token ≠ "") (hsp : ' ' ∉ token.toList)
    (hh : x.req.headers.authorization = some ("Bearer " ++ token)) :
    (protect supabase x).calls = x.calls ++ [Call.getUser token] ∧
    (truthy (supabase.getUser token).error = false →
      truthy (supabase.getUser token).data.user = true →
      protect supabase x =
        ⟨⟨x.req.headers, x.req.body, x.req.params, (supabase.getUser token).data.user⟩, x.res,
          x.calls ++ [Call.getUser token], x.nexts + 1, x.thrown⟩) := by
  have htok : tokenOf x.req = some token := by
    simp [tokenOf, hh, split_bearer token hsp]
  refine ⟨?_, ?_⟩
  · simp only [protect, htok, hne, if_false]
    split <;> rfl
  · intro he hu
    simp [protect, htok, hne, he, hu]

/-- Witness of C2: header `Bearer abc`, and a verification that resolves a
user. -/
theorem protect_accepts_witness :
    (protect (stub ⟨⟨.obj [("id", .str "u1")]⟩, .null⟩ ⟨.null, .null⟩)
        (Exchange.start (request (some "Bearer abc")))).calls = [Call.getUser "abc"] ∧
    protect (stub ⟨⟨.obj [("id", .str "u1")]⟩, .null⟩ ⟨.null, .null⟩)
        (Exchange.start (request (some "Bearer abc"))) =
      ⟨⟨⟨some "Bearer abc"⟩, .obj [], ⟨"7"⟩, .obj [("id", .str "u1")]⟩, Response.fresh,
        [Call.getUser "abc"], 1, none⟩ :=
  ⟨(protect_accepts (stub ⟨⟨.obj [("id", .str "u1")]⟩, .null⟩ ⟨.null, .null⟩)
      (Exchange.start (request (some "Bearer abc"))) "abc" (by decide) (by decide) rfl).1,
   (protect_accepts (stub ⟨⟨.obj [("id", .str "u1")]⟩, .null⟩ ⟨.null, .null⟩)
      (Exchange.start (request (some "Bearer abc"))) "abc" (by decide) (by decide) rfl).2
      rfl rfl⟩

/-- C9: `protect` reads the header only through its second space-separated
segment: two requests with the same second segment (and the same `user`
property on arrival) get the same response, the same calls to the backing
service, the same number of `next` invocations and the same attached identity,
whatever the first segment is; and a header without a space, or with an empty
second segment, is answered 401 as a missing token. -/
theorem protect_ignores_scheme (supabase : Supabase) (r₁ r₂ : Request)
    (hseg : tokenOf r₁ = tokenOf r₂) (huser : r₁.user = r₂.user) :
    ((protect supabase (Exchange.start r₁)).res = (protect supabase (Exchange.start r₂)).res ∧
      (protect supabase (Exchange.start r₁)).calls =
        (protect supabase (Exchange.start r₂)).calls ∧
      (protect supabase (Exchange.start r₁)).nexts =
        (protect supabase (Exchange.start r₂)).nexts ∧
      (protect supabase (Exchange.start r₁)).req.user =
        (protect supabase (Exchange.start r₂)).req.user) ∧
    (∀ (req : Request) (h : String), req.headers.authorization = some h →
      (' ' ∉ h.toList ∨ (split h)[1]? = some "") →
      protect supabase (Exchange.start req) =
        ⟨req, ⟨401, [(401, message "Access Denied")]⟩, [], 0, none⟩) := by
  refine ⟨?_, ?_⟩
  · simp only [protect, Exchange.start, ← hseg]
    cases tokenOf r₁ with
    | none => simp [huser]
    | some token =>
      by_cases ht : token = ""
      · simp [ht, huser]
      · simp only [ht, if_false]
        split <;> simp [huser]
  · intro req h hh hcase
    have hseg' : tokenOf req = none ∨ tokenOf req = some "" := by
      rcases hcase with hsp | he
      · left
        simp [tokenOf, hh, split_of_no_space h hsp]
      · right
        simp [tokenOf, hh, he]
    have := protect_without_token supabase (Exchange.start req) hseg'
    simpa [Exchange.start, Response.fresh] using this

/-- Witness of C9: `Bearer abc`, `Basic abc` and `x abc extra` are treated
alike, and the headers `Bearer` and `Bearer  abc` (two spaces) are answered
401. -/
theorem protect_ignores_scheme_witness :
    ((protect (stub ⟨⟨.obj [("id", .str "u1")]⟩, .null⟩ ⟨.null, .null⟩)
        (Exchange.start (request (some "Bearer abc")))).res =
      (protect (stub ⟨⟨.obj [("id", .str "u1")]⟩, .null⟩ ⟨.null, .null⟩)
        (Exchange.start (request (some "Basic abc")))).res ∧
     (protect (stub ⟨⟨.obj [("id", .str "u1")]⟩, .null⟩ ⟨.null, .null⟩)
        (Exchange.start (request (some "Bearer abc")))).nexts =
      (protect (stub ⟨⟨.obj [("id", .str "u1")]⟩, .null⟩ ⟨.null, .null⟩)
        (Exchange.start (request (some "x abc extra")))).nexts) ∧
    protect (stub ⟨⟨.obj [("id", .str "u1")]⟩, .null⟩ ⟨.null, .null⟩)
        (Exchange.start (request (some "Bearer"))) =
      ⟨request (some "Bearer"), ⟨401, [(401, message "Access Denied")]⟩, [], 0, none⟩ ∧
    protect (stub ⟨⟨.obj [("id", .str "u1")]⟩, .null⟩ ⟨.null, .null⟩)
        (Exchange.start (request (some "Bearer  abc"))) =
      ⟨request (some "Bearer  abc"), ⟨401, [(401, message "Access Denied")]⟩, [], 0, none⟩ :=
  ⟨⟨(protect_ignores_scheme (stub ⟨⟨.obj [("id", .str "u1")]⟩, .null⟩ ⟨.null, .null⟩)
        (request (some "Bearer abc")) (request (some "Basic abc")) rfl rfl).1.1,
     (protect_ignores_scheme (stub ⟨⟨.obj [("id", .str "u1")]⟩, .null⟩ ⟨.null, .null⟩)
        (request (some "Bearer abc")) (request (some "x abc extra")) rfl rfl).1.2.2.1⟩,
   (protect_ignores_scheme (stub ⟨⟨.obj [("id", .str "u1")]⟩, .null⟩ ⟨.null, .null⟩)
      (request (some "Bearer abc")) (request (some "Basic abc")) rfl rfl).2
      (request (some "Bearer")) "Bearer" rfl (Or.inl (by decide)),
   (protect_ignores_scheme (stub ⟨⟨.obj [("id", .str "u1")]⟩, .null⟩ ⟨.null, .null⟩)
      (request (some "Bearer abc")) (request (some "Basic abc")) rfl rfl).2
      (request (some "Bearer  abc")) "Bearer  abc" rfl (Or.inr (by decide))⟩

/-! ## Public reads -/

/-- C8: `publicGet(table)` and the handler of `GET /api/about` send exactly one
response, with the default status 200 and the `data` of the backing result as
body, whatever the `error` of that result is: two backing services whose
results have the same `data` get identical responses. -/
theorem public_reads_swallow_errors (supabase₁ supabase₂ : Supabase) (table : String)
    (x : Exchange) (hres : x.res = Response.fresh) (qList qAbout : Query)
    (hList : qList = ⟨table, .select "*", [], false, some ("id", true), false⟩)
    (hAbout : qAbout = ⟨"about", .select "*", [], false, none, true⟩) :
    (publicGet table supabase₁ x).res = ⟨200, [(200, (supabase₁.run qList).data)]⟩ ∧
    (aboutGet supabase₁ x).res = ⟨200, [(200, (supabase₁.run qAbout).data)]⟩ ∧
    ((supabase₁.run qList).data = (supabase₂.run qList).data →
      (publicGet table supabase₁ x).res = (publicGet table supabase₂ x).res) ∧
    ((supabase₁.run qAbout).data = (supabase₂.run qAbout).data →
      (aboutGet supabase₁ x).res = (aboutGet supabase₂ x).res) := by
  subst hList hAbout
  refine ⟨?_, ?_, ?_, ?_⟩
  · simp [publicGet, hres, Response.fresh, Response.json, fromTable, Query.select,
      Query.orderBy]
  · simp [aboutGet, hres, Response.fresh, Response.json, fromTable, Query.select, Query.one]
  · intro h
    simp only [publicGet, fromTable, Query.select, Query.orderBy]
    rw [h]
  · intro h
    simp only [aboutGet, fromTable, Query.select, Query.one]
    rw [h]

/-- Witness of C8: a failed read of `skills` (null data, an error) and a read
that returns null data without error are answered alike, 200 with `null`. -/
theorem public_reads_swallow_errors_witness :
    (publicGet "skills" (stub ⟨⟨.null⟩, .null⟩ ⟨.null, message "timeout"⟩)
        (Exchange.start (request none))).res = ⟨200, [(200, .null)]⟩ ∧
    (publicGet "skills" (stub ⟨⟨.null⟩, .null⟩ ⟨.null, message "timeout"⟩)
        (Exchange.start (request none))).res =
      (publicGet "skills" (stub ⟨⟨.null⟩, .null⟩ ⟨.null, .null⟩)
        (Exchange.start (request none))).res :=
  ⟨(public_reads_swallow_errors (stub ⟨⟨.null⟩, .null⟩ ⟨.null, message "timeout"⟩)
      (stub ⟨⟨.null⟩, .null⟩ ⟨.null, .null⟩) "skills" (Exchange.start (request none)) rfl
      _ _ rfl rfl).1,
   (public_reads_swallow_errors (stub ⟨⟨.null⟩, .null⟩ ⟨.null, message "timeout"⟩)
      (stub ⟨⟨.null⟩, .null⟩ ⟨.null, .null⟩) "skills" (Exchange.start (request none)) rfl
      _ _ rfl rfl).2.2.1 rfl⟩

/-! ## Admin writes -/

/-- C5: the handler of `PUT /api/admin/about` issues one query: an update of
table `about` whose payload is the request body and whose only filter is
`id = 1` (whatever the body and the route parameters are), asking the rows
back. When the result has a truthy `error` it sends 400 with that error;
otherwise, when rows are returned, it sends 200 with the first one. -/
theorem aboutPut_targets_id_one (supabase : Supabase) (x : Exchange)
    (hres : x.res = Response.fresh) (q : Query)
    (hq : q = ⟨"about", .update x.req.body, [("id", .num 1)], true, none, false⟩) :
    (aboutPut supabase x).calls = x.calls ++ [Call.run q] ∧
    (truthy (supabase.run q).error = true →
      (aboutPut supabase x).res = ⟨400, [(400, (supabase.run q).error)]⟩) ∧
    (truthy (supabase.run q).error = false →
      ∀ row rest, (supabase.run q).data = .arr (row :: rest) →
        (aboutPut supabase x).res = ⟨200, [(200, row)]⟩) := by
  subst hq
  refine ⟨?_, ?_, ?_⟩
  · simp only [aboutPut, fromTable, Query.update, Query.eq, Query.selectBack, List.nil_append]
    split
    · rfl
    · split <;> rfl
  · intro he
    simp [aboutPut, fromTable, Query.update, Query.eq, Query.selectBack, he, hres,
      Response.fresh, Response.status, Response.json]
  · intro he row rest hd
    simp [aboutPut, fromTable, Query.update, Query.eq, Query.selectBack, he, hd, hres,
      Response.fresh, Response.json, index0]

/-- Witness of C5: a body that carries `id: 99`, sent with route parameter
`id = "5"`, still updates the row `id = 1`, and the returned row is sent with
status 200. -/
theorem aboutPut_targets_id_one_witness :
    (aboutPut (stub ⟨⟨.null⟩, .null⟩ ⟨.arr [.obj [("id", .num 1)]], .null⟩)
        (Exchange.start ⟨⟨none⟩, .obj [("id", .num 99)], ⟨"5"⟩, .undefined⟩)).calls =
      [Call.run ⟨"about", .update (.obj [("id", .num 99)]), [("id", .num 1)], true, none,
        false⟩] ∧
    (aboutPut (stub ⟨⟨.null⟩, .null⟩ ⟨.arr [.obj [("id", .num 1)]], .null⟩)
        (Exchange.start ⟨⟨none⟩, .obj [("id", .num 99)], ⟨"5"⟩, .undefined⟩)).res =
      ⟨200, [(200, .obj [("id", .num 1)])]⟩ :=
  ⟨(aboutPut_targets_id_one (stub ⟨⟨.null⟩, .null⟩ ⟨.arr [.obj [("id", .num 1)]], .null⟩)
      (Exchange.start ⟨⟨none⟩, .obj [("id", .num 99)], ⟨"5"⟩, .undefined⟩) rfl _ rfl).1,
   (aboutPut_targets_id_one (stub ⟨⟨.null⟩, .null⟩ ⟨.arr [.obj [("id", .num 1)]], .null⟩)
      (Exchange.start ⟨⟨none⟩, .obj [("id", .num 99)], ⟨"5"⟩, .undefined⟩) rfl _ rfl).2.2
      rfl _ _ rfl⟩

/-- C6: for every table, the handlers registered by `setupAdminCRUD` for POST,
PUT and DELETE issue one query each (insert of the request body as one row,
asking the rows back; update with the request body filtered on `id` equal to
the route parameter, asking the rows back; delete filtered on `id` equal to
the route parameter). Each sends a 400 response exactly when the result has a
truthy `error`, and the body is then that error. Otherwise, when rows are
returned, POST sends 201 with the first row and PUT sends 200 with the first
row, and DELETE sends 200 `{message: "Deleted successfully"}`. -/
theorem admin_writes_contract (supabase : Supabase) (table : String) (x : Exchange)
    (hres : x.res = Response.fresh) (qPost qPut qDelete : Query)
    (hPost : qPost = ⟨table, .insert [x.req.body], [], true, none, false⟩)
    (hPut : qPut =
      ⟨table, .update x.req.body, [("id", .str x.req.params.id)], true, none, false⟩)
    (hDelete : qDelete = ⟨table, .delete, [("id", .str x.req.params.id)], false, none, false⟩) :
    ((adminPost table supabase x).calls = x.calls ++ [Call.run qPost] ∧
      (adminPut table supabase x).calls = x.calls ++ [Call.run qPut] ∧
      (adminDelete table supabase x).calls = x.calls ++ [Call.run qDelete]) ∧
    (((∃ body, (400, body) ∈ (adminPost table supabase x).res.sent) ↔
        truthy (supabase.run qPost).error = true) ∧
      ((∃ body, (400, body) ∈ (adminPut table supabase x).res.sent) ↔
        truthy (supabase.run qPut).error = true) ∧
      ((∃ body, (400, body) ∈ (adminDelete table supabase x).res.sent) ↔
        truthy (supabase.run qDelete).error = true)) ∧
    ((truthy (supabase.run qPost).error = true →
        (adminPost table supabase x).res = ⟨400, [(400, (supabase.run qPost).error)]⟩) ∧
      (truthy (supabase.run qPut).error = true →
        (adminPut table supabase x).res = ⟨400, [(400, (supabase.run qPut).error)]⟩) ∧
      (truthy (supabase.run qDelete).error = true →
        (adminDelete table supabase x).res = ⟨400, [(400, (supabase.run qDelete).error)]⟩)) ∧
    ((truthy (supabase.run qPost).error = false →
        ∀ row rest, (supabase.run qPost).data = .arr (row :: rest) →
          (adminPost table supabase x).res = ⟨201, [(201, row)]⟩) ∧
      (truthy (supabase.run qPut).error = false →
        ∀ row rest, (supabase.run qPut).data = .arr (row :: rest) →
          (adminPut table supabase x).res = ⟨200, [(200, row)]⟩) ∧
      (truthy (supabase.run qDelete).error = false →
        (adminDelete table supabase x).res =
          ⟨200, [(200, message "Deleted successfully")]⟩)) := by
  subst hPost hPut hDelete
  simp only [adminPost, adminPut, adminDelete, fromTable, Query.insert, Query.update,
    Query.delete, Query.eq, Query.selectBack, List.nil_append, hres, Response.fresh,
    Response.status, Response.json]
  refine ⟨⟨?_, ?_, ?_⟩, ⟨?_, ?_, ?_⟩, ⟨?_, ?_, ?_⟩, ⟨?_, ?_, ?_⟩⟩
  · split
    · rfl
    · split <;> rfl
  · split
    · rfl
    · split <;> rfl
  · split <;> rfl
  · split
    · simp_all
    · split <;> simp_all
  · split
    · simp_all
    · split <;> simp_all
  · split <;> simp_all
  · intro he
    simp [he]
  · intro he
    simp [he]
  · intro he
    simp [he]
  · intro he row rest hd
    simp [he, hd, index0]
  · intro he row rest hd
    simp [he, hd, index0]
  · intro he
    simp [he]

/-- Witness of C6: on table `skills`, a result with an error gives 400 with
that error on POST, and a result with one row gives 201 with that row. -/
theorem admin_writes_contract_witness :
    (adminPost "skills" (stub ⟨⟨.null⟩, .null⟩ ⟨.null, message "duplicate key"⟩)
        (Exchange.start (request none))).res = ⟨400, [(400, message "duplicate key")]⟩ ∧
    (adminPost "skills" (stub ⟨⟨.null⟩, .null⟩ ⟨.arr [.obj [("id", .num 3)]], .null⟩)
        (Exchange.start (request none))).res = ⟨201, [(201, .obj [("id", .num 3)])]⟩ :=
  ⟨(admin_writes_contract (stub ⟨⟨.null⟩, .null⟩ ⟨.null, message "duplicate key"⟩) "skills"
      (Exchange.start (request none)) rfl _ _ _ rfl rfl rfl).2.2.1.1 rfl,
   (admin_writes_contract (stub ⟨⟨.null⟩, .null⟩ ⟨.arr [.obj [("id", .num 3)]], .null⟩)
      "skills" (Exchange.start (request none)) rfl _ _ _ rfl rfl rfl).2.2.2.1 rfl _ _ rfl⟩

/-- C10: when the backing result has a falsy `error` and an empty row list,
the handlers of `PUT /api/admin/<table>/:id` and `PUT /api/admin/about` send
200 with an `undefined` body and the handler of `POST /api/admin/<table>` sends
201 with an `undefined` body; none of them throws. -/
theorem empty_row_list_reported_as_success (supabase : Supabase) (table : String)
    (x : Exchange) (hres : x.res = Response.fresh) (qPut qAbout qPost : Query)
    (hPut : qPut =
      ⟨table, .update x.req.body, [("id", .str x.req.params.id)], true, none, false⟩)
    (hAbout : qAbout = ⟨"about", .update x.req.body, [("id", .num 1)], true, none, false⟩)
    (hPost : qPost = ⟨table, .insert [x.req.body], [], true, none, false⟩) :
    (truthy (supabase.run qPut).error = false → (supabase.run qPut).data = .arr [] →
      (adminPut table supabase x).res = ⟨200, [(200, .undefined)]⟩ ∧
      (adminPut table supabase x).thrown = x.thrown) ∧
    (truthy (supabase.run qAbout).error = false → (supabase.run qAbout).data = .arr [] →
      (aboutPut supabase x).res = ⟨200, [(200, .undefined)]⟩ ∧
      (aboutPut supabase x).thrown = x.thrown) ∧
    (truthy (supabase.run qPost).error = false → (supabase.run qPost).data = .arr [] →
      (adminPost table supabase x).res = ⟨201, [(201, .undefined)]⟩ ∧
      (adminPost table supabase x).thrown = x.thrown) := by
  subst hPut hAbout hPost
  simp only [adminPost, adminPut, aboutPut, fromTable, Query.insert, Query.update,
    Query.eq, Query.selectBack, List.nil_append, hres, Response.fresh,
    Response.status, Response.json]
  refine ⟨?_, ?_, ?_⟩ <;>
  · intro he hd
    simp [he, hd, index0]

/-- Witness of C10: an update of `skills` row `7` that matches no row. -/
theorem empty_row_list_reported_as_success_witness :
    (adminPut "skills" (stub ⟨⟨.null⟩, .null⟩ ⟨.arr [], .null⟩)
        (Exchange.start (request none))).res = ⟨200, [(200, .undefined)]⟩ ∧
    (adminPut "skills" (stub ⟨⟨.null⟩, .null⟩ ⟨.arr [], .null⟩)
        (Exchange.start (request none))).thrown = none :=
  (empty_row_list_reported_as_success (stub ⟨⟨.null⟩, .null⟩ ⟨.arr [], .null⟩) "skills"
    (Exchange.start (request none)) rfl _ _ _ rfl rfl rfl).1 rfl rfl

/-! ## Admin messages -/

/-- C7, as stated, fails: on a result with an error the handler of
`GET /api/admin/messages` sends 400 with the error where the generic
`GET /api/admin/<table>` handler sends 200 with the data, and on success the
handler of `DELETE /api/admin/messages/:id` sends `{message: "Message deleted"}`
where the generic one sends `{message: "Deleted successfully"}`. -/
theorem messages_differ_from_generic :
    (messagesGet (stub ⟨⟨.null⟩, .null⟩ ⟨.null, message "timeout"⟩)
        (Exchange.start (request none))).res = ⟨400, [(400, message "timeout")]⟩ ∧
    (adminGet "skills" (stub ⟨⟨.null⟩, .null⟩ ⟨.null, message "timeout"⟩)
        (Exchange.start (request none))).res = ⟨200, [(200, .null)]⟩ ∧
    (messagesGet (stub ⟨⟨.null⟩, .null⟩ ⟨.null, message "timeout"⟩)
        (Exchange.start (request none))).res ≠
      (adminGet "skills" (stub ⟨⟨.null⟩, .null⟩ ⟨.null, message "timeout"⟩)
        (Exchange.start (request none))).res ∧
    (messagesDelete (stub ⟨⟨.null⟩, .null⟩ ⟨.null, .null⟩)
        (Exchange.start (request none))).res = ⟨200, [(200, message "Message deleted")]⟩ ∧
    (adminDelete "skills" (stub ⟨⟨.null⟩, .null⟩ ⟨.null, .null⟩)
        (Exchange.start (request none))).res =
      ⟨200, [(200, message "Deleted successfully")]⟩ ∧
    (messagesDelete (stub ⟨⟨.null⟩, .null⟩ ⟨.null, .null⟩)
        (Exchange.start (request none))).res ≠
      (adminDelete "skills" (stub ⟨⟨.null⟩, .null⟩ ⟨.null, .null⟩)
        (Exchange.start (request none))).res := by
  refine ⟨rfl, rfl, ?_, rfl, rfl, ?_⟩
  · simp [messagesGet, adminGet, stub, Exchange.start, Response.fresh, Response.status,
      Response.json, truthy, message]
  · simp [messagesDelete, adminDelete, stub, Exchange.start, Response.fresh, Response.status,
      Response.json, truthy, message]

/-- C7, amended: the handlers of the admin messages routes issue one query each
(select of `messages` ordered by descending `created_at`; delete on `messages`
filtered on `id` equal to the route parameter). When the backing service gives
the messages query and the generic query of a table the same result, then: on a
falsy `error` the list handler sends the same response as the generic list
handler (200 with the data), and on a truthy `error` it sends 400 with the
error; the delete handler sends the same 400 response with the error as the
generic delete handler on a truthy `error`, and on a falsy `error` it sends 200
with `{message: "Message deleted"}`. -/
theorem messages_contract (supabase : Supabase) (table : String) (x : Exchange)
    (hres : x.res = Response.fresh) (qList qDelete : Query)
    (hList : qList = ⟨"messages", .select "*", [], false, some ("created_at", false), false⟩)
    (hDelete : qDelete =
      ⟨"messages", .delete, [("id", .str x.req.params.id)], false, none, false⟩)
    (hsameList : supabase.run qList =
      supabase.run ⟨table, .select "*", [], false, some ("id", false), false⟩)
    (hsameDelete : supabase.run qDelete =
      supabase.run ⟨table, .delete, [("id", .str x.req.params.id)], false, none, false⟩) :
    ((messagesGet supabase x).calls = x.calls ++ [Call.run qList] ∧
      (messagesDelete supabase x).calls = x.calls ++ [Call.run qDelete]) ∧
    (truthy (supabase.run qList).error = false →
      (messagesGet supabase x).res = ⟨200, [(200, (supabase.run qList).data)]⟩ ∧
      (messagesGet supabase x).res = (adminGet table supabase x).res) ∧
    (truthy (supabase.run qList).error = true →
      (messagesGet supabase x).res = ⟨400, [(400, (supabase.run qList).error)]⟩) ∧
    (truthy (supabase.run qDelete).error = true →
      (messagesDelete supabase x).res = ⟨400, [(400, (supabase.run qDelete).error)]⟩ ∧
      (messagesDelete supabase x).res = (adminDelete table supabase x).res) ∧
    (truthy (supabase.run qDelete).error = false →
      (messagesDelete supabase x).res = ⟨200, [(200, message "Message deleted")]⟩) := by
  subst hList hDelete
  simp only [messagesGet, messagesDelete, adminGet, adminDelete, fromTable, Query.select,
    Query.delete, Query.eq, Query.orderBy, List.nil_append, hres, Response.fresh,
    Response.status, Response.json] at hsameList hsameDelete ⊢
  refine ⟨⟨?_, ?_⟩, ?_, ?_, ?_, ?_⟩
  · split <;> rfl
  · split <;> rfl
  · intro he
    simp [he, ← hsameList]
  · intro he
    simp [he]
  · intro he
    simp [he, ← hsameDelete]
  · intro he
    simp [he]

/-- Witness of C7, amended: a backing service that answers every query with
the rows `[{id: 1}]` and no error. -/
theorem messages_contract_witness :
    (messagesGet (stub ⟨⟨.null⟩, .null⟩ ⟨.arr [.obj [("id", .num 1)]], .null⟩)
        (Exchange.start (request none))).res =
      (adminGet "skills" (stub ⟨⟨.null⟩, .null⟩ ⟨.arr [.obj [("id", .num 1)]], .null⟩)
        (Exchange.start (request none))).res ∧
    (messagesDelete (stub ⟨⟨.null⟩, .null⟩ ⟨.arr [.obj [("id", .num 1)]], .null⟩)
        (Exchange.start (request none))).res = ⟨200, [(200, message "Message deleted")]⟩ :=
  ⟨((messages_contract (stub ⟨⟨.null⟩, .null⟩ ⟨.arr [.obj [("id", .num 1)]], .null⟩) "skills"
      (Exchange.start (request none)) rfl _ _ rfl rfl rfl rfl).2.1 rfl).2,
   (messages_contract (stub ⟨⟨.null⟩, .null⟩ ⟨.arr [.obj [("id", .num 1)]], .null⟩) "skills"
      (Exchange.start (request none)) rfl _ _ rfl rfl rfl rfl).2.2.2.2 rfl⟩

/-! ## Start-up -/

/-- C3, evaluated on the script: of the routes written under `/api/admin/`,
the twenty-four registered by `setupAdminCRUD` and `PUT /api/admin/about` have
`protect` as their only middleware, while the two messages routes name the
identifier `authenticateToken`, which the script never declares. -/
theorem admin_routes_middleware :
    (routesOf script).filter (fun r => isAdminPath r.path && r.middleware == ["protect"]) =
      adminTables.flatMap setupAdminCRUD ++
        [⟨.put, "/api/admin/about", ["protect"], .aboutPut⟩] ∧
    (routesOf script).filter (fun r => isAdminPath r.path && r.middleware != ["protect"]) =
      [⟨.get, "/api/admin/messages", ["authenticateToken"], .messagesGet⟩,
       ⟨.delete, "/api/admin/messages/:id", ["authenticateToken"], .messagesDelete⟩] ∧
    Stmt.const "authenticateToken" ∉ script := by
  refine ⟨?_, ?_, ?_⟩ <;> decide

/-- C4, evaluated on the script: running `server.js` from an empty scope
registers the thirty-four routes written before `GET /api/admin/messages`
(all of them public or guarded by `protect`), then throws
`ReferenceError: authenticateToken is not defined`; `app.listen` is not
reached. -/
theorem startup_throws_reference_error :
    (run ⟨[], [], false⟩ script).2 = some "ReferenceError: authenticateToken is not defined" ∧
    (run ⟨[], [], false⟩ script).1.listening = false ∧
    (run ⟨[], [], false⟩ script).1.routes.length = 34 ∧
    (run ⟨[], [], false⟩ script).1.routes =
      (routesOf script).filter (fun r => r.middleware != ["authenticateToken"]) := by
  refine ⟨?_, ?_, ?_, ?_⟩ <;> decide

end Server
